import Mathlib

/-!
Verification of the kivi invalidation / component-lifecycle core
(`src/invalidator.js`).

The JavaScript source is shallowly embedded as a state machine over an
explicit `World` record.  Heap objects (`kivi.InvalidatorSubscription`,
`kivi.Invalidator`, `kivi.Component`, and the JavaScript arrays used by the
dual-shape subscription storage) are addressed by numeric ids through
finite maps, so the aliasing behaviour of the original (live iteration of
a shared array while handlers mutate it, fields holding either `null`, a
single subscription object, or an array) is reproduced exactly.

JavaScript exceptions (the `kivi.DEBUG` invariant throws and `TypeError`s
from dereferencing `null`) are modelled by an `Outcome` type whose error
constructor carries the state at the moment of the throw, matching the
fact that JavaScript mutations performed before an exception persist.

Descriptor hooks and the external renderer and scheduler are collaborators
outside the core (the spec excludes them); their invocations are recorded
as `Event`s, the scheduler is modelled by a `clock` plus the two
registration queues, exactly the interface the core consumes.
-/

namespace kivi

/-- Flag `kivi.InvalidatorSubscriptionFlags.COMPONENT`. -/
def COMPONENT : Nat := 1

/-- Flag `kivi.InvalidatorSubscriptionFlags.TRANSIENT`. -/
def TRANSIENT : Nat := 2

/-- Modelled from the spec: the module `kivi.ComponentFlags` is required
(`goog.require`) but absent from the excerpt.  The spec (section 4.4) lists the
independent flag bits Attached, Mounting, Dirty, Disposed, UpdateEachFrame and
InUpdateQueue; they are modelled as distinct bits. -/
def ATTACHED : Nat := 1

/-- Modelled from the spec: `kivi.ComponentFlags.MOUNTING`. -/
def MOUNTING : Nat := 2

/-- Modelled from the spec: `kivi.ComponentFlags.DIRTY`. -/
def DIRTY : Nat := 4

/-- Modelled from the spec: `kivi.ComponentFlags.DISPOSED`. -/
def DISPOSED : Nat := 8

/-- Modelled from the spec: `kivi.ComponentFlags.UPDATE_EACH_FRAME`. -/
def UPDATE_EACH_FRAME : Nat := 16

/-- Modelled from the spec: `kivi.ComponentFlags.SHOULD_UPDATE_FLAGS`, the
composite readiness mask.  The spec describes it as a composite owned by the
missing flag module and illustrates the gating with "e.g., not attached, or
not dirty"; it is modelled as Attached together with Dirty.  The theorems
below about `update` depend only on containment of the mask, not on its
exact composition. -/
def SHOULD_UPDATE_FLAGS : Nat := ATTACHED ||| DIRTY

/-- Modelled from the spec: `kivi.ComponentFlags.IN_UPDATE_QUEUE`. -/
def IN_UPDATE_QUEUE : Nat := 32

/-- JavaScript `x & ~bits` on 32-bit integers (all flag words in the source
are small non-negative bit sets). -/
def bitClear (x bits : Nat) : Nat := x &&& (4294967295 ^^^ bits)

/-- A callback subscriber is external user code; the effects it may perform
through the core's public api are represented syntactically.  Cancelling a
subscription mid-wave is the behaviour the spec discusses for handlers. -/
inductive Cmd where
  | nop : Cmd
  | cancelSub (sid : Nat) : Cmd
  deriving DecidableEq, Repr

/-- The `subscriber` field of `kivi.InvalidatorSubscription`: either a
component (by id) or a zero-argument callback. -/
inductive Subscriber where
  | component (cid : Nat) : Subscriber
  | callback (prog : List Cmd) : Subscriber
  deriving DecidableEq, Repr

/-- The dual-shape subscription storage used by both `kivi.Invalidator` and
`kivi.Component`: the JavaScript field holds `null`, a single
`InvalidatorSubscription`, or a (heap-allocated, shared) array. -/
inductive Subs where
  | nil : Subs
  | one (sid : Nat) : Subs
  | arr (aid : Nat) : Subs
  deriving DecidableEq, Repr

/-- Object `kivi.InvalidatorSubscription` (
`flags`, `invalidator`, `subscriber`, and the debug-only `_isCanceled`). -/
structure SubRec where
  flags : Nat
  invalidator : Nat
  subscriber : Subscriber
  isCanceled : Bool
  deriving DecidableEq, Repr

/-- Object `kivi.Invalidator`: `mtime` plus the two dual-shape subscription sets. -/
structure InvRec where
  mtime : Nat
  subscriptions : Subs
  transientSubscriptions : Subs
  deriving DecidableEq, Repr

/-- Object `kivi.Component`.  `data`, `state`, `children` and the host `element` are
payloads owned by descriptor hooks and the host environment, never inspected
by the core, and are not modelled.  The shared `kivi.CDescriptor` contributes
only the presence of its optional hooks to the modelled operations
(`init`, `update`, `disposed`), recorded here as booleans; `root` is the
external virtual-tree node, of which the core only tests nullness. -/
structure CompRec where
  flags : Nat
  mtime : Nat
  parent : Option Nat
  depth : Nat
  hasRoot : Bool
  descInit : Bool
  descUpdate : Bool
  descDisposed : Bool
  subscriptions : Subs
  transientSubscriptions : Subs
  deriving DecidableEq, Repr

/-- Observable interactions with the external collaborators: a
subscription's `invalidate()` being invoked, and descriptor / renderer
hook invocations. -/
inductive Event where
  | notified (sid : Nat) : Event
  | initHook (cid : Nat) : Event
  | updateHook (cid : Nat) : Event
  | disposedHook (cid : Nat) : Event
  | rootDisposed (cid : Nat) : Event
  deriving DecidableEq, Repr

/-- The whole mutable state: the scheduler interface consumed by the core
(`clock`, the next-frame queue, the each-frame queue), the object heaps, the
array heap for dual-shape storage, fresh-id counters and the event log. -/
structure World where
  clock : Nat
  nextFrameQueue : List Nat
  eachFrameQueue : List Nat
  subs : Nat → Option SubRec
  invs : Nat → Option InvRec
  comps : Nat → Option CompRec
  arrays : Nat → Option (List Nat)
  nextSubId : Nat
  nextInvId : Nat
  nextCompId : Nat
  nextArrayId : Nat
  events : List Event

/-- Result of running an operation: normal return, or a propagating
JavaScript exception together with the state at the throw (JavaScript does
not roll back mutations on `throw`). -/
inductive Outcome where
  | ok (w : World) : Outcome
  | err (msg : String) (w : World) : Outcome

/-- The state carried by an outcome. -/
def Outcome.world : Outcome → World
  | .ok w => w
  | .err _ w => w

/-- Did the operation return normally? -/
def Outcome.isOk : Outcome → Bool
  | .ok _ => true
  | .err _ _ => false

/-- Sequencing: a propagating exception skips the continuation. -/
def Outcome.andThen (o : Outcome) (f : World → Outcome) : Outcome :=
  match o with
  | .ok w => f w
  | .err m w => .err m w

/-- Point update of an id-indexed finite map. -/
def updMap {α : Type} (m : Nat → Option α) (k : Nat) (v : α) : Nat → Option α :=
  fun i => if i = k then some v else m i

/-- JavaScript `Array.prototype.indexOf` (object identity is id equality;
`none` models the `-1` result). -/
def jsIndexOf (l : List Nat) (v : Nat) : Option Nat :=
  l.findIdx? (fun x => x = v)

/-- JavaScript `arr[i] = v`: in-range assignment overwrites, assignment at
index `length` appends (the only out-of-range index this code can produce,
right after a `pop`). -/
def jsArraySet (l : List Nat) (i : Nat) (v : Nat) : List Nat :=
  if i < l.length then l.set i v else l ++ [v]

/-- Select a dual-shape slot of an invalidator by the subscription's
durability, as the source's duplicated `if ((flags & TRANSIENT) === 0)`
branches do. -/
def InvRec.getSlot (r : InvRec) (transient : Bool) : Subs :=
  if transient then r.transientSubscriptions else r.subscriptions

/-- Write the selected dual-shape slot of an invalidator. -/
def InvRec.setSlot (r : InvRec) (transient : Bool) (s : Subs) : InvRec :=
  if transient then { r with transientSubscriptions := s }
  else { r with subscriptions := s }

/-- Select a dual-shape slot of a component by durability. -/
def CompRec.getSlot (c : CompRec) (transient : Bool) : Subs :=
  if transient then c.transientSubscriptions else c.subscriptions

/-- Write the selected dual-shape slot of a component. -/
def CompRec.setSlot (c : CompRec) (transient : Bool) (s : Subs) : CompRec :=
  if transient then { c with transientSubscriptions := s }
  else { c with subscriptions := s }

/-- The removal block that `kivi.Invalidator.prototype.removeSubscription`
and `kivi.Component.prototype.removeSubscription` each duplicate verbatim
for their durable and transient fields.  Returns the new slot value and the
updated array heap.  `errMsg` is the debug message of the surrounding
method.  Faithful to the source line by line:
a `null` slot crashes on `.constructor` (TypeError); a single-object slot or
a length-1 array is checked (debug) and nulled; otherwise
`subscriptions[i] = subscriptions.pop()` runs, which for `i` being the last
index re-appends the popped element. -/
def removeSlot (slot : Subs) (arrays : Nat → Option (List Nat)) (sid : Nat)
    (errMsg : String) :
    Except String (Subs × (Nat → Option (List Nat))) :=
  match slot with
  | .nil => .error "TypeError"
  | .one s =>
      if s = sid then .ok (.nil, arrays) else .error errMsg
  | .arr aid =>
      match arrays aid with
      | none => .error "TypeError"
      | some l =>
          if l.length = 1 then
            if l.headD 0 = sid then .ok (.nil, arrays) else .error errMsg
          else
            match jsIndexOf l sid with
            | none => .error errMsg
            | some i =>
                .ok (.arr aid,
                  updMap arrays aid (jsArraySet l.dropLast i (l.getLastD 0)))

/-- The insertion block duplicated by `kivi.Invalidator.prototype.addSubscription`
and mirrored by `kivi.Component.prototype.subscribe` /
`transientSubscribe`: `null` becomes the single object, a single object is
upgraded to a fresh two-element array, an array is pushed to.  Returns the
new slot, array heap and fresh-array counter. -/
def addSlot (slot : Subs) (arrays : Nat → Option (List Nat))
    (nextAid sid : Nat) :
    Except String (Subs × (Nat → Option (List Nat)) × Nat) :=
  match slot with
  | .nil => .ok (.one sid, arrays, nextAid)
  | .one s => .ok (.arr nextAid, updMap arrays nextAid [s, sid], nextAid + 1)
  | .arr aid =>
      match arrays aid with
      | none => .error "TypeError"
      | some l => .ok (.arr aid, updMap arrays aid (l ++ [sid]), nextAid)

/-- Method `kivi.Invalidator.prototype.removeSubscription`. -/
def Invalidator.removeSubscription (iid sid : Nat) (w : World) : Outcome :=
  match w.subs sid, w.invs iid with
  | some s, some r =>
      let transient : Bool := (s.flags &&& TRANSIENT) != 0
      match removeSlot (r.getSlot transient) w.arrays sid
          "Failed to remove subscription from Invalidator: cannot find appropriate subscription" with
      | .error m => .err m w
      | .ok (slot', arrays') =>
          .ok { w with invs := updMap w.invs iid (r.setSlot transient slot'),
                       arrays := arrays' }
  | _, _ => .err "TypeError" w

/-- Method `kivi.Component.prototype.removeSubscription` (the mirror-side removal;
identical dual-shape logic on the component's own sets). -/
def Component.removeSubscription (cid sid : Nat) (w : World) : Outcome :=
  match w.subs sid, w.comps cid with
  | some s, some c =>
      let transient : Bool := (s.flags &&& TRANSIENT) != 0
      match removeSlot (c.getSlot transient) w.arrays sid
          "Failed to remove subscription from Component: cannot find appropriate subscription" with
      | .error m => .err m w
      | .ok (slot', arrays') =>
          .ok { w with comps := updMap w.comps cid (c.setSlot transient slot'),
                       arrays := arrays' }
  | _, _ => .err "TypeError" w

/-- Method `kivi.InvalidatorSubscription.prototype.cancel`: debug double-cancel
guard, removal from the invalidator, and, for component-flavoured
subscriptions, removal from the component's mirrored set. -/
def InvalidatorSubscription.cancel (sid : Nat) (w : World) : Outcome :=
  match w.subs sid with
  | none => .err "TypeError" w
  | some s =>
      if s.isCanceled then
        .err "Failed to cancel InvalidatorSubscription: subscription cannot be canceled twice" w
      else
        let w1 := { w with subs := updMap w.subs sid { s with isCanceled := true } }
        (Invalidator.removeSubscription s.invalidator sid w1).andThen fun w2 =>
          if (s.flags &&& COMPONENT) != 0 then
            match s.subscriber with
            | .component cid => Component.removeSubscription cid sid w2
            | .callback _ => .err "TypeError" w2
          else .ok w2

/-- Run a plain callback subscriber's body (external user code acting
through the public api). -/
def runCmds : List Cmd → World → Outcome
  | [], w => .ok w
  | .nop :: rest, w => runCmds rest w
  | .cancelSub sid :: rest, w =>
      (InvalidatorSubscription.cancel sid w).andThen (runCmds rest)

/-- The body of the loops in `kivi.Component.prototype.cancelSubscriptions`
and `cancelTransientSubscriptions`:
`var s = subscriptions[i]; s.invalidator.removeSubscription(s);` iterated
with `i < subscriptions.length` checked against the live array each turn.
`fuel` is a modelling artefact bounding the iteration count (no operation
reachable from the body ever grows an array, so `length + 1` at entry is
always enough; exhaustion is a distinguishable model error, proved
unreachable where needed). -/
def cancelLoop (aid : Nat) (i fuel : Nat) (w : World) : Outcome :=
  match fuel with
  | 0 => .err "model: loop fuel exhausted" w
  | fuel + 1 =>
      match w.arrays aid with
      | none => .err "TypeError" w
      | some l =>
          if i < l.length then
            (match w.subs (l.getD i 0) with
             | none => Outcome.err "TypeError" w
             | some s =>
                 Invalidator.removeSubscription s.invalidator (l.getD i 0) w
            ).andThen (cancelLoop aid (i + 1) fuel)
          else .ok w

/-- The dual-shape dispatch that `kivi.Component.prototype.cancelSubscriptions`
and `cancelTransientSubscriptions` each perform inline on their mirror slot:
nothing for `null`, one `invalidator.removeSubscription` call for a single
subscription, the live loop for an array. -/
def cancelOneOrMany (slot : Subs) (w : World) : Outcome :=
  match slot with
  | .nil => .ok w
  | .one sid =>
      match w.subs sid with
      | none => .err "TypeError" w
      | some s => Invalidator.removeSubscription s.invalidator sid w
  | .arr aid =>
      match w.arrays aid with
      | none => .err "TypeError" w
      | some l => cancelLoop aid 0 (l.length + 1) w

/-- Method `kivi.Component.prototype.cancelSubscriptions`: cancel every durable
subscription at its invalidator (via the dual-shape iteration), then
`this._subscriptions = null`. -/
def Component.cancelSubscriptions (cid : Nat) (w : World) : Outcome :=
  match w.comps cid with
  | none => .err "TypeError" w
  | some c =>
      (cancelOneOrMany c.subscriptions w).andThen fun w2 =>
        match w2.comps cid with
        | none => .err "TypeError" w2
        | some c2 =>
            .ok { w2 with comps := (updMap w2.comps cid
                    { c2 with subscriptions := .nil }) }

/-- Method `kivi.Component.prototype.cancelTransientSubscriptions`: same shape as
`cancelSubscriptions` on the transient mirror set, ending with
`this._transientSubscriptions = null`. -/
def Component.cancelTransientSubscriptions (cid : Nat) (w : World) : Outcome :=
  match w.comps cid with
  | none => .err "TypeError" w
  | some c =>
      (cancelOneOrMany c.transientSubscriptions w).andThen fun w2 =>
        match w2.comps cid with
        | none => .err "TypeError" w2
        | some c2 =>
            .ok { w2 with comps := (updMap w2.comps cid
                    { c2 with transientSubscriptions := .nil }) }

/-- Method `kivi.Component.prototype.invalidate`: no-op unless the component is
clean (neither Dirty nor Disposed); otherwise set Dirty, cancel the
transient subscriptions, and register with
`scheduler.nextFrame().updateComponent(this)` (modelled by appending to the
scheduler's next-frame queue). -/
def Component.invalidate (cid : Nat) (w : World) : Outcome :=
  match w.comps cid with
  | none => .err "TypeError" w
  | some c =>
      if c.flags &&& (DIRTY ||| DISPOSED) = 0 then
        let w1 := { w with comps := (updMap w.comps cid
                     { c with flags := c.flags ||| DIRTY }) }
        (Component.cancelTransientSubscriptions cid w1).andThen fun w2 =>
          .ok { w2 with nextFrameQueue := w2.nextFrameQueue ++ [cid] }
      else .ok w

/-- Method `kivi.InvalidatorSubscription.prototype.invalidate`: record the
notification, then dispatch on the subscriber kind — a component's
`invalidate()` for component subscriptions, the plain callback otherwise. -/
def InvalidatorSubscription.invalidate (sid : Nat) (w : World) : Outcome :=
  match w.subs sid with
  | none => .err "TypeError" w
  | some s =>
      let w1 := { w with events := w.events ++ [Event.notified sid] }
      if (s.flags &&& COMPONENT) != 0 then
        match s.subscriber with
        | .component cid => Component.invalidate cid w1
        | .callback _ => .err "TypeError" w1
      else
        match s.subscriber with
        | .callback prog => runCmds prog w1
        | .component _ => .err "TypeError" w1

/-- The `for (i = 0; i < subscriptions.length; i++) subscriptions[i].invalidate()`
loops of `kivi.Invalidator.prototype.invalidate`.  The local variable holds
a reference to the shared array, so the bound and elements are re-read from
the live array each iteration, exactly as in the source; `fuel` as in
`cancelLoop`. -/
def waveLoop (aid : Nat) (i fuel : Nat) (w : World) : Outcome :=
  match fuel with
  | 0 => .err "model: loop fuel exhausted" w
  | fuel + 1 =>
      match w.arrays aid with
      | none => .err "TypeError" w
      | some l =>
          if i < l.length then
            (InvalidatorSubscription.invalidate (l.getD i 0) w).andThen
              (waveLoop aid (i + 1) fuel)
          else .ok w

/-- Method `kivi.Invalidator.prototype.invalidate`: if `mtime < scheduler.clock`,
stamp `mtime`, notify the durable set through the live alias, then re-read
the transient field, null it, and notify the snapshot. -/
def Invalidator.invalidate (iid : Nat) (w : World) : Outcome :=
  match w.invs iid with
  | none => .err "TypeError" w
  | some r =>
      if r.mtime < w.clock then
        let w1 := { w with invs := updMap w.invs iid { r with mtime := w.clock } }
        (match r.subscriptions with
         | .nil => Outcome.ok w1
         | .one sid => InvalidatorSubscription.invalidate sid w1
         | .arr aid =>
             match w1.arrays aid with
             | none => Outcome.err "TypeError" w1
             | some l => waveLoop aid 0 (l.length + 1) w1
        ).andThen fun w2 =>
          match w2.invs iid with
          | none => .err "TypeError" w2
          | some r2 =>
              match r2.transientSubscriptions with
              | .nil => .ok w2
              | .one sid =>
                  let w3 := { w2 with invs := (updMap w2.invs iid
                               { r2 with transientSubscriptions := .nil }) }
                  InvalidatorSubscription.invalidate sid w3
              | .arr aid =>
                  let w3 := { w2 with invs := (updMap w2.invs iid
                               { r2 with transientSubscriptions := .nil }) }
                  match w3.arrays aid with
                  | none => .err "TypeError" w3
                  | some l => waveLoop aid 0 (l.length + 1) w3
      else .ok w

/-- Method `kivi.Invalidator.prototype.addSubscription`. -/
def Invalidator.addSubscription (iid sid : Nat) (w : World) : Outcome :=
  match w.subs sid, w.invs iid with
  | some s, some r =>
      let transient : Bool := (s.flags &&& TRANSIENT) != 0
      match addSlot (r.getSlot transient) w.arrays w.nextArrayId sid with
      | .error m => .err m w
      | .ok (slot', arrays', nextAid') =>
          .ok { w with invs := updMap w.invs iid (r.setSlot transient slot'),
                       arrays := arrays', nextArrayId := nextAid' }
  | _, _ => .err "TypeError" w

/-- The `kivi.Invalidator` constructor: `mtime` is initialised to the
scheduler's current clock, both sets start `null`. -/
def Invalidator.construct (w : World) : Outcome :=
  .ok { w with
          invs := (updMap w.invs w.nextInvId
            { mtime := w.clock, subscriptions := .nil,
              transientSubscriptions := .nil }),
          nextInvId := w.nextInvId + 1 }

/-- A plain-callback subscription wired up the way the api is used:
`new kivi.InvalidatorSubscription(flags, invalidator, callback)` followed by
`invalidator.addSubscription(s)`. -/
def callbackSubscribe (iid : Nat) (transient : Bool) (prog : List Cmd)
    (w : World) : Outcome :=
  let sid := w.nextSubId
  let w1 := { w with
                subs := (updMap w.subs sid
                  { flags := if transient then TRANSIENT else 0,
                    invalidator := iid, subscriber := .callback prog,
                    isCanceled := false }),
                nextSubId := sid + 1 }
  Invalidator.addSubscription iid sid w1

/-- Method `kivi.Component.prototype.subscribe`: create a component-flavoured
durable subscription, register it with the invalidator, and mirror it into
the component's own durable set (the mirror push duplicates the dual-shape
insertion inline in the source). -/
def Component.subscribe (cid iid : Nat) (w : World) : Outcome :=
  match w.comps cid with
  | none => .err "TypeError" w
  | some _ =>
      let sid := w.nextSubId
      let w1 := { w with
                    subs := (updMap w.subs sid
                      { flags := COMPONENT, invalidator := iid,
                        subscriber := .component cid, isCanceled := false }),
                    nextSubId := sid + 1 }
      (Invalidator.addSubscription iid sid w1).andThen fun w2 =>
        match w2.comps cid with
        | none => .err "TypeError" w2
        | some c =>
            match addSlot c.subscriptions w2.arrays w2.nextArrayId sid with
            | .error m => .err m w2
            | .ok (slot', arrays', nextAid') =>
                .ok { w2 with
                        comps := (updMap w2.comps cid
                          { c with subscriptions := slot' }),
                        arrays := arrays', nextArrayId := nextAid' }

/-- Method `kivi.Component.prototype.transientSubscribe`: as `subscribe` with the
TRANSIENT flag and the transient mirror set. -/
def Component.transientSubscribe (cid iid : Nat) (w : World) : Outcome :=
  match w.comps cid with
  | none => .err "TypeError" w
  | some _ =>
      let sid := w.nextSubId
      let w1 := { w with
                    subs := (updMap w.subs sid
                      { flags := COMPONENT ||| TRANSIENT, invalidator := iid,
                        subscriber := .component cid, isCanceled := false }),
                    nextSubId := sid + 1 }
      (Invalidator.addSubscription iid sid w1).andThen fun w2 =>
        match w2.comps cid with
        | none => .err "TypeError" w2
        | some c =>
            match addSlot c.transientSubscriptions w2.arrays w2.nextArrayId sid with
            | .error m => .err m w2
            | .ok (slot', arrays', nextAid') =>
                .ok { w2 with
                        comps := (updMap w2.comps cid
                          { c with transientSubscriptions := slot' }),
                        arrays := arrays', nextArrayId := nextAid' }

/-- Method `kivi.Component.prototype.update`: run only when the flags fully contain
the composite readiness mask; then `this.descriptor.update(this)` is invoked
with no null check (a `null` hook is a TypeError), `mtime` is stamped with
the scheduler clock and Dirty is cleared.  The hook is user code outside the
core, recorded as an event. -/
def Component.update (cid : Nat) (w : World) : Outcome :=
  match w.comps cid with
  | none => .err "TypeError" w
  | some c =>
      if c.flags &&& SHOULD_UPDATE_FLAGS = SHOULD_UPDATE_FLAGS then
        if c.descUpdate then
          .ok { w with
                  comps := (updMap w.comps cid
                    { c with mtime := w.clock,
                             flags := bitClear c.flags DIRTY }),
                  events := w.events ++ [Event.updateHook cid] }
        else .err "TypeError" w
      else .ok w

/-- Method `kivi.Component.prototype.startUpdateEachFrame`: set UpdateEachFrame;
if InUpdateQueue is clear, set it and register with
`scheduler.startUpdateComponentEachFrame` (modelled by the each-frame
queue). -/
def Component.startUpdateEachFrame (cid : Nat) (w : World) : Outcome :=
  match w.comps cid with
  | none => .err "TypeError" w
  | some c =>
      let f1 := c.flags ||| UPDATE_EACH_FRAME
      if f1 &&& IN_UPDATE_QUEUE = 0 then
        .ok { w with
                comps := (updMap w.comps cid
                  { c with flags := f1 ||| IN_UPDATE_QUEUE }),
                eachFrameQueue := w.eachFrameQueue ++ [cid] }
      else
        .ok { w with comps := updMap w.comps cid { c with flags := f1 } }

/-- Method `kivi.Component.prototype.stopUpdateEachFrame`: clear the
UpdateEachFrame bit; nothing else. -/
def Component.stopUpdateEachFrame (cid : Nat) (w : World) : Outcome :=
  match w.comps cid with
  | none => .err "TypeError" w
  | some c =>
      .ok { w with comps := (updMap w.comps cid
              { c with flags := bitClear c.flags UPDATE_EACH_FRAME }) }

/-- Method `kivi.Component.prototype.dispose`: debug guard against double dispose;
set Disposed, clear Attached and UpdateEachFrame, cancel both subscription
sets, dispose the rendered root if present (renderer call, recorded as an
event), then the descriptor's `disposed` hook if present. -/
def Component.dispose (cid : Nat) (w : World) : Outcome :=
  match w.comps cid with
  | none => .err "TypeError" w
  | some c =>
      if c.flags &&& DISPOSED != 0 then
        .err "Failed to dispose Component: component is already disposed" w
      else
        let f1 := bitClear (c.flags ||| DISPOSED) (ATTACHED ||| UPDATE_EACH_FRAME)
        let w1 := { w with comps := updMap w.comps cid { c with flags := f1 } }
        (Component.cancelSubscriptions cid w1).andThen fun w2 =>
        (Component.cancelTransientSubscriptions cid w2).andThen fun w3 =>
          match w3.comps cid with
          | none => .err "TypeError" w3
          | some c3 =>
              let w4 := if c3.hasRoot then
                  { w3 with events := w3.events ++ [Event.rootDisposed cid] }
                else w3
              if c3.descDisposed then
                .ok { w4 with events := w4.events ++ [Event.disposedHook cid] }
              else .ok w4

/-- Factories `kivi.Component.create` / `kivi.Component.mount`: construct the instance
with the initial flags (`SHOULD_UPDATE_FLAGS`, plus Mounting on the mount
path), depth derived from the parent, and run the descriptor's `init` hook
if present.  Host-element creation is external and unmodelled. -/
def Component.create (mounting : Bool) (descInit descUpdate descDisposed : Bool)
    (parent : Option Nat) (hasRoot : Bool) (w : World) : Outcome :=
  let cid := w.nextCompId
  match parent with
  | some p =>
      match w.comps p with
      | none => .err "TypeError" w
      | some pc =>
          let w1 := { w with
                        comps := (updMap w.comps cid
                          { flags := if mounting then
                                SHOULD_UPDATE_FLAGS ||| MOUNTING
                              else SHOULD_UPDATE_FLAGS,
                            mtime := 0, parent := some p, depth := pc.depth + 1,
                            hasRoot := hasRoot, descInit := descInit,
                            descUpdate := descUpdate,
                            descDisposed := descDisposed,
                            subscriptions := .nil,
                            transientSubscriptions := .nil }),
                        nextCompId := cid + 1 }
          if descInit then
            .ok { w1 with events := w1.events ++ [Event.initHook cid] }
          else .ok w1
  | none =>
      let w1 := { w with
                    comps := (updMap w.comps cid
                      { flags := if mounting then
                            SHOULD_UPDATE_FLAGS ||| MOUNTING
                          else SHOULD_UPDATE_FLAGS,
                        mtime := 0, parent := none, depth := 0,
                        hasRoot := hasRoot, descInit := descInit,
                        descUpdate := descUpdate,
                        descDisposed := descDisposed,
                        subscriptions := .nil,
                        transientSubscriptions := .nil }),
                    nextCompId := cid + 1 }
      if descInit then
        .ok { w1 with events := w1.events ++ [Event.initHook cid] }
      else .ok w1

/-- The scheduler's clock is monotonically increasing (spec section 6); the
core only reads it.  Advancing it is the single external clock action. -/
def clockAdvance (n : Nat) (w : World) : Outcome :=
  .ok { w with clock := w.clock + n }

/-- Every operation of the core (plus the external clock advance), for
stating whole-system invariants such as `mtime` monotonicity. -/
inductive Op where
  | clockAdvance (n : Nat) : Op
  | invalidatorConstruct : Op
  | invalidatorAddSubscription (iid sid : Nat) : Op
  | invalidatorRemoveSubscription (iid sid : Nat) : Op
  | invalidatorInvalidate (iid : Nat) : Op
  | subscriptionCancel (sid : Nat) : Op
  | subscriptionInvalidate (sid : Nat) : Op
  | callbackSubscribe (iid : Nat) (transient : Bool) (prog : List Cmd) : Op
  | componentCreate (mounting descInit descUpdate descDisposed : Bool)
      (parent : Option Nat) (hasRoot : Bool) : Op
  | componentSubscribe (cid iid : Nat) : Op
  | componentTransientSubscribe (cid iid : Nat) : Op
  | componentRemoveSubscription (cid sid : Nat) : Op
  | componentCancelSubscriptions (cid : Nat) : Op
  | componentCancelTransientSubscriptions (cid : Nat) : Op
  | componentInvalidate (cid : Nat) : Op
  | componentUpdate (cid : Nat) : Op
  | componentStartUpdateEachFrame (cid : Nat) : Op
  | componentStopUpdateEachFrame (cid : Nat) : Op
  | componentDispose (cid : Nat) : Op
  deriving DecidableEq, Repr

/-- Interpret one operation. -/
def applyOp : Op → World → Outcome
  | .clockAdvance n, w => clockAdvance n w
  | .invalidatorConstruct, w => Invalidator.construct w
  | .invalidatorAddSubscription iid sid, w => Invalidator.addSubscription iid sid w
  | .invalidatorRemoveSubscription iid sid, w =>
      Invalidator.removeSubscription iid sid w
  | .invalidatorInvalidate iid, w => Invalidator.invalidate iid w
  | .subscriptionCancel sid, w => InvalidatorSubscription.cancel sid w
  | .subscriptionInvalidate sid, w => InvalidatorSubscription.invalidate sid w
  | .callbackSubscribe iid transient prog, w => callbackSubscribe iid transient prog w
  | .componentCreate mounting dInit dUpdate dDisposed parent hasRoot, w =>
      Component.create mounting dInit dUpdate dDisposed parent hasRoot w
  | .componentSubscribe cid iid, w => Component.subscribe cid iid w
  | .componentTransientSubscribe cid iid, w => Component.transientSubscribe cid iid w
  | .componentRemoveSubscription cid sid, w => Component.removeSubscription cid sid w
  | .componentCancelSubscriptions cid, w => Component.cancelSubscriptions cid w
  | .componentCancelTransientSubscriptions cid, w =>
      Component.cancelTransientSubscriptions cid w
  | .componentInvalidate cid, w => Component.invalidate cid w
  | .componentUpdate cid, w => Component.update cid w
  | .componentStartUpdateEachFrame cid, w => Component.startUpdateEachFrame cid w
  | .componentStopUpdateEachFrame cid, w => Component.stopUpdateEachFrame cid w
  | .componentDispose cid, w => Component.dispose cid w

/-- The error message carried by an exceptional outcome, if any. -/
def Outcome.errMsg : Outcome → Option String
  | .ok _ => none
  | .err m _ => some m

/-- Did every invalidator survive with a non-decreased `mtime`?  The
statement of the spec's monotonicity invariant between two states. -/
def invMtimeLe (w w' : World) : Prop :=
  ∀ i r, w.invs i = some r → ∃ r', w'.invs i = some r' ∧ r.mtime ≤ r'.mtime

/-- The empty initial state: clock 0, no objects, empty queues and log. -/
def emptyWorld : World :=
  { clock := 0, nextFrameQueue := [], eachFrameQueue := [],
    subs := fun _ => none, invs := fun _ => none, comps := fun _ => none,
    arrays := fun _ => none, nextSubId := 0, nextInvId := 0, nextCompId := 0,
    nextArrayId := 0, events := [] }

/-- An attached, clean component with an `update` hook and no
subscriptions; the baseline instance used by the concrete scenarios. -/
def cleanComp : CompRec :=
  { flags := ATTACHED, mtime := 0, parent := none, depth := 0, hasRoot := false,
    descInit := false, descUpdate := true, descDisposed := false,
    subscriptions := .nil, transientSubscriptions := .nil }

/-- A component-flavoured transient subscription record to invalidator 0. -/
def transientCompSub (cid : Nat) : SubRec :=
  { flags := COMPONENT ||| TRANSIENT, invalidator := 0,
    subscriber := .component cid, isCanceled := false }

/-- A durable component-flavoured subscription record to invalidator 0. -/
def durableCompSub (cid : Nat) : SubRec :=
  { flags := COMPONENT, invalidator := 0,
    subscriber := .component cid, isCanceled := false }

/-- A durable plain-callback subscription record to invalidator 0 with an
inert callback. -/
def inertCallbackSub : SubRec :=
  { flags := 0, invalidator := 0, subscriber := .callback [],
    isCanceled := false }

/-- Scenario for C1: invalidator 0 at `mtime = 0`, clock already at 1, two
components each holding one transient subscription (ids 0 and 1, stored as
a two-element array), both mirrored one-to-one.  A fully consistent state
produced by two `transientSubscribe` calls. -/
def c1World : World :=
  { emptyWorld with
    clock := 1,
    invs := updMap emptyWorld.invs 0
      { mtime := 0, subscriptions := .nil, transientSubscriptions := .arr 0 },
    arrays := updMap emptyWorld.arrays 0 [0, 1],
    subs := updMap (updMap emptyWorld.subs 0 (transientCompSub 0)) 1
      (transientCompSub 1),
    comps := updMap
      (updMap emptyWorld.comps 0 { cleanComp with transientSubscriptions := .one 0 }) 1
      { cleanComp with transientSubscriptions := .one 1 } }

/-- Scenario for C2: a single component (id 0), transiently subscribed to
invalidator 0 (subscription id 0), clean, clock advanced to 1. -/
def c2World : World :=
  { emptyWorld with
    clock := 1,
    invs := updMap emptyWorld.invs 0
      { mtime := 0, subscriptions := .nil, transientSubscriptions := .one 0 },
    subs := updMap emptyWorld.subs 0 (transientCompSub 0),
    comps := updMap emptyWorld.comps 0
      { cleanComp with transientSubscriptions := .one 0 } }

/-- Scenario for C3: invalidator 0 with two durable plain-callback
subscriptions (ids 0 and 1) stored as the array `[0, 1]`. -/
def c3World : World :=
  { emptyWorld with
    invs := updMap emptyWorld.invs 0
      { mtime := 0, subscriptions := .arr 0, transientSubscriptions := .nil },
    arrays := updMap emptyWorld.arrays 0 [0, 1],
    subs := updMap (updMap emptyWorld.subs 0 inertCallbackSub) 1
      inertCallbackSub }

/-- Scenario for C8: component 0 durably subscribed twice to invalidator 0
(subscription ids 0 and 1); the invalidator's set is array 0 = `[0, 1]` and
the component's mirrored set is array 1 = `[0, 1]`. -/
def c8World : World :=
  { emptyWorld with
    invs := updMap emptyWorld.invs 0
      { mtime := 0, subscriptions := .arr 0, transientSubscriptions := .nil },
    arrays := updMap (updMap emptyWorld.arrays 0 [0, 1]) 1 [0, 1],
    subs := updMap (updMap emptyWorld.subs 0 (durableCompSub 0)) 1
      (durableCompSub 0),
    comps := updMap emptyWorld.comps 0
      { cleanComp with subscriptions := .arr 1 } }

/-- Witness scenario for the confirmed claims: clock 1, a clean attached
component (id 0) with no subscriptions. -/
def witWorld : World :=
  { emptyWorld with
    clock := 1,
    comps := updMap emptyWorld.comps 0 cleanComp }

/-- The component record of the C6 witness scenario: attached, in
continuous-update mode, with a rendered root, a `disposed` hook, one
durable and one transient mirrored subscription. -/
def c6Comp : CompRec :=
  { cleanComp with
      flags := ATTACHED ||| UPDATE_EACH_FRAME, hasRoot := true,
      descDisposed := true, subscriptions := .one 0,
      transientSubscriptions := .one 1 }

/-- Witness scenario for C6: component 0 is `c6Comp`, its two
subscriptions (durable id 0, transient id 1) registered on invalidator 0. -/
def c6World : World :=
  { emptyWorld with
    invs := updMap emptyWorld.invs 0
      { mtime := 0, subscriptions := .one 0, transientSubscriptions := .one 1 },
    subs := updMap (updMap emptyWorld.subs 0 (durableCompSub 0)) 1
      (transientCompSub 0),
    comps := updMap emptyWorld.comps 0 c6Comp }

/-- Witness scenario for C10: component 0 with Attached, UpdateEachFrame
and InUpdateQueue set. -/
def c10World : World :=
  { emptyWorld with
    comps := updMap emptyWorld.comps 0
      { cleanComp with
          flags := ATTACHED ||| UPDATE_EACH_FRAME ||| IN_UPDATE_QUEUE } }

/-- Witness scenario for C9: a ready (attached and dirty) component whose
descriptor has no `update` hook. -/
def c9World : World :=
  { emptyWorld with
    clock := 1,
    comps := updMap emptyWorld.comps 0
      { cleanComp with flags := ATTACHED ||| DIRTY, descUpdate := false } }

/-- Witness scenario for C5: a ready (attached and dirty) component with an
`update` hook, clock at 7. -/
def c5World : World :=
  { emptyWorld with
    clock := 7,
    comps := updMap emptyWorld.comps 0
      { cleanComp with flags := ATTACHED ||| DIRTY } }

theorem updMap_same {α : Type} (m : Nat → Option α) (k : Nat) (v : α) :
    updMap m k v k = some v := by
  simp [updMap]

theorem updMap_other {α : Type} (m : Nat → Option α) (k : Nat) (v : α)
    (i : Nat) (h : i ≠ k) : updMap m k v i = m i := by
  simp [updMap, h]

theorem updMap_updMap {α : Type} (m : Nat → Option α) (k : Nat) (a b : α) :
    updMap (updMap m k a) k b = updMap m k b := by
  funext i
  by_cases h : i = k <;> simp [updMap, h]

theorem ne_zero_of_testBit {x : Nat} (k : Nat) (h : x.testBit k = true) :
    x ≠ 0 := by
  intro h0
  rw [h0] at h
  simp [Nat.zero_testBit] at h

theorem testBit_of_and_pow {x k : Nat} (h : x &&& 2 ^ k ≠ 0) :
    x.testBit k = true := by
  obtain ⟨i, hi⟩ := Nat.ne_zero_implies_bit_true h
  rw [Nat.testBit_and, Nat.testBit_two_pow] at hi
  rcases Bool.and_eq_true .. |>.mp hi with ⟨hx, hk⟩
  have : k = i := by simpa using hk
  rwa [this]

theorem guard_after_dirty (x : Nat) :
    (x ||| DIRTY) &&& (DIRTY ||| DISPOSED) ≠ 0 := by
  apply ne_zero_of_testBit 2
  simp [DIRTY, DISPOSED, Nat.testBit_and, Nat.testBit_or,
    (by decide : Nat.testBit 4 2 = true),
    (by decide : Nat.testBit 12 2 = true)]

theorem guard_after_stop_start {x : Nat} (h : x &&& IN_UPDATE_QUEUE ≠ 0) :
    (bitClear x UPDATE_EACH_FRAME ||| UPDATE_EACH_FRAME) &&& IN_UPDATE_QUEUE ≠ 0 := by
  have hx : x.testBit 5 = true := by
    apply testBit_of_and_pow (k := 5)
    simpa [IN_UPDATE_QUEUE, (by norm_num : (32 : Nat) = 2 ^ 5)] using h
  apply ne_zero_of_testBit 5
  simp [bitClear, UPDATE_EACH_FRAME, IN_UPDATE_QUEUE, Nat.testBit_and,
    Nat.testBit_or, Nat.testBit_xor, hx,
    (by decide : Nat.testBit 32 5 = true),
    (by decide : Nat.testBit 16 5 = false),
    (by decide : Nat.testBit 4294967295 5 = true),
    (by decide : Nat.testBit 4294967279 5 = true)]

/-- C5: `update()` invokes the descriptor's update hook exactly when the
component's flags fully contain `SHOULD_UPDATE_FLAGS`; on execution it
records the hook invocation, stamps `mtime` with the scheduler clock and
clears Dirty; otherwise it returns the state completely unchanged (no hook
event, no flag or mtime change).  The descriptor is assumed to carry an
`update` hook (its absence is the subject of C9). -/
theorem C5_update_gating (w : World) (cid : Nat) (c : CompRec)
    (hc : w.comps cid = some c) (hhook : c.descUpdate = true) :
    (c.flags &&& SHOULD_UPDATE_FLAGS = SHOULD_UPDATE_FLAGS →
      Component.update cid w = .ok { w with
        comps := updMap w.comps cid
          { c with mtime := w.clock, flags := bitClear c.flags DIRTY },
        events := w.events ++ [Event.updateHook cid] }) ∧
    (c.flags &&& SHOULD_UPDATE_FLAGS ≠ SHOULD_UPDATE_FLAGS →
      Component.update cid w = .ok w) := by
  constructor <;> intro h <;> simp [Component.update, hc, h, hhook]

/-- C5 witness: on `c5World` (attached, dirty, hook present, clock 7) the
hypotheses hold and `update` runs the hook, stamps `mtime := 7` and clears
Dirty. -/
theorem C5_update_gating_witness :
    (c5World.comps 0 = some { cleanComp with flags := ATTACHED ||| DIRTY } ∧
     CompRec.descUpdate { cleanComp with flags := ATTACHED ||| DIRTY } = true) ∧
    (((ATTACHED ||| DIRTY) &&& SHOULD_UPDATE_FLAGS = SHOULD_UPDATE_FLAGS →
      Component.update 0 c5World = .ok { c5World with
        comps := updMap c5World.comps 0
          { { cleanComp with flags := ATTACHED ||| DIRTY } with
              mtime := c5World.clock,
              flags := bitClear (ATTACHED ||| DIRTY) DIRTY },
        events := c5World.events ++ [Event.updateHook 0] }) ∧
     ((ATTACHED ||| DIRTY) &&& SHOULD_UPDATE_FLAGS ≠ SHOULD_UPDATE_FLAGS →
      Component.update 0 c5World = .ok c5World)) :=
  ⟨⟨by decide, by decide⟩,
   C5_update_gating c5World 0 { cleanComp with flags := ATTACHED ||| DIRTY }
     (by decide) (by decide)⟩

/-- C9: when the readiness mask is satisfied, `update()` calls
`this.descriptor.update(this)` with no null check; if the descriptor's
optional `update` hook is absent the call fails (TypeError on invoking
`null`) instead of no-oping. -/
theorem C9_update_without_hook_fails (w : World) (cid : Nat) (c : CompRec)
    (hc : w.comps cid = some c)
    (hmask : c.flags &&& SHOULD_UPDATE_FLAGS = SHOULD_UPDATE_FLAGS)
    (hhook : c.descUpdate = false) :
    Component.update cid w = .err "TypeError" w := by
  simp [Component.update, hc, hmask, hhook]

/-- C9 witness: on `c9World` (ready component, no update hook) `update`
fails with the TypeError. -/
theorem C9_update_without_hook_fails_witness :
    (c9World.comps 0 = some { cleanComp with
        flags := ATTACHED ||| DIRTY, descUpdate := false } ∧
     (ATTACHED ||| DIRTY) &&& SHOULD_UPDATE_FLAGS = SHOULD_UPDATE_FLAGS ∧
     CompRec.descUpdate { cleanComp with
        flags := ATTACHED ||| DIRTY, descUpdate := false } = false) ∧
    Component.update 0 c9World = .err "TypeError" c9World :=
  ⟨⟨by decide, by decide, by decide⟩,
   C9_update_without_hook_fails c9World 0
     { cleanComp with flags := ATTACHED ||| DIRTY, descUpdate := false }
     (by decide) (by decide) (by decide)⟩

/-- C10: `stopUpdateEachFrame()` clears exactly the UpdateEachFrame bit
and leaves every other part of the world unchanged (in particular the
InUpdateQueue flag stays set, the queues, log and heaps are untouched);
and when InUpdateQueue is still set, a subsequent `startUpdateEachFrame()`
merely re-sets the UpdateEachFrame bit — the resulting world differs from
the original only in that one flags field, with no new each-frame-queue
registration. -/
theorem C10_stop_then_start (w : World) (cid : Nat) (c : CompRec)
    (hc : w.comps cid = some c) :
    (Component.stopUpdateEachFrame cid w = .ok { w with
        comps := updMap w.comps cid
          { c with flags := bitClear c.flags UPDATE_EACH_FRAME } }) ∧
    (c.flags &&& IN_UPDATE_QUEUE ≠ 0 →
      (Component.stopUpdateEachFrame cid w).andThen
          (Component.startUpdateEachFrame cid) = .ok { w with
        comps := updMap w.comps cid
          { c with flags :=
              bitClear c.flags UPDATE_EACH_FRAME ||| UPDATE_EACH_FRAME } }) := by
  constructor
  · simp [Component.stopUpdateEachFrame, hc]
  · intro h
    have hg := guard_after_stop_start h
    simp [Component.stopUpdateEachFrame, hc, Outcome.andThen,
      Component.startUpdateEachFrame, updMap_same, hg, updMap_updMap]

/-- C10 witness: on `c10World` (Attached, UpdateEachFrame and InUpdateQueue
set) stop clears only the UpdateEachFrame bit and stop-then-start restores
it without touching the each-frame queue. -/
theorem C10_stop_then_start_witness :
    (c10World.comps 0 = some { cleanComp with
        flags := ATTACHED ||| UPDATE_EACH_FRAME ||| IN_UPDATE_QUEUE } ∧
     (ATTACHED ||| UPDATE_EACH_FRAME ||| IN_UPDATE_QUEUE) &&& IN_UPDATE_QUEUE ≠ 0) ∧
    ((Component.stopUpdateEachFrame 0 c10World = .ok { c10World with
        comps := updMap c10World.comps 0
          { { cleanComp with
                flags := ATTACHED ||| UPDATE_EACH_FRAME ||| IN_UPDATE_QUEUE } with
              flags := bitClear (ATTACHED ||| UPDATE_EACH_FRAME ||| IN_UPDATE_QUEUE)
                UPDATE_EACH_FRAME } }) ∧
     ((ATTACHED ||| UPDATE_EACH_FRAME ||| IN_UPDATE_QUEUE) &&& IN_UPDATE_QUEUE ≠ 0 →
      (Component.stopUpdateEachFrame 0 c10World).andThen
          (Component.startUpdateEachFrame 0) = .ok { c10World with
        comps := updMap c10World.comps 0
          { { cleanComp with
                flags := ATTACHED ||| UPDATE_EACH_FRAME ||| IN_UPDATE_QUEUE } with
              flags :=
                bitClear (ATTACHED ||| UPDATE_EACH_FRAME ||| IN_UPDATE_QUEUE)
                  UPDATE_EACH_FRAME ||| UPDATE_EACH_FRAME } })) :=
  ⟨⟨by decide, by decide⟩,
   C10_stop_then_start c10World 0
     { cleanComp with flags := ATTACHED ||| UPDATE_EACH_FRAME ||| IN_UPDATE_QUEUE }
     (by decide)⟩

/-- C1: the claim asserts that an actual `invalidate()` call invokes
`invalidate()` exactly once on each entry of the taken transient snapshot
and completes as a single well-formed notification wave.  On `c1World`
(two transient component subscriptions, a state produced by two ordinary
`transientSubscribe` calls), the wave instead throws: the first notified
component's `cancelTransientSubscriptions` calls
`Invalidator.removeSubscription` on a transient subscription, but the
invalidator's `_transientSubscriptions` field was already nulled when the
snapshot was taken, so `subscriptions.constructor` dereferences `null`.
The second snapshot entry (subscription 1) is never notified at all: the
recorded notifications stop at subscription 0. -/
theorem C1_transient_wave_aborts :
    (Invalidator.invalidate 0 c1World).isOk = false ∧
    (Invalidator.invalidate 0 c1World).errMsg = some "TypeError" ∧
    (Invalidator.invalidate 0 c1World).world.events = [Event.notified 0] ∧
    (Invalidator.invalidate 0 c1World).world.invs 0 =
      some { mtime := 1, subscriptions := .nil,
             transientSubscriptions := .nil } := by
  refine ⟨rfl, rfl, rfl, rfl⟩

/-- C2: the claim asserts that invalidating an invalidator with a clean
transiently-subscribed component completes without error, leaves the
component Dirty with its transient subscriptions canceled, and registers
it once in the next-frame queue.  On `c2World` (exactly that
configuration) the code instead throws a `TypeError` (the nulled
`_transientSubscriptions` is dereferenced during
`cancelTransientSubscriptions`), and the component is never registered in
the next-frame queue; the Dirty bit has already been set when the
exception escapes. -/
theorem C2_transient_invalidate_throws :
    (Invalidator.invalidate 0 c2World).isOk = false ∧
    (Invalidator.invalidate 0 c2World).errMsg = some "TypeError" ∧
    (Invalidator.invalidate 0 c2World).world.nextFrameQueue = [] ∧
    (Invalidator.invalidate 0 c2World).world.comps 0 =
      some { cleanComp with
               flags := ATTACHED ||| DIRTY,
               transientSubscriptions := .one 0 } := by
  refine ⟨rfl, rfl, rfl, by decide⟩

/-- C3: the claim asserts that a removed subscription receives no further
notifications.  On `c3World`, removing subscription 1 — the last element
of the two-element durable array — returns normally (the debug check
passes), but `subscriptions[i] = subscriptions.pop()` re-appends the
popped element, so the array is unchanged; advancing the clock and
invalidating then notifies the removed subscription 1 again. -/
theorem C3_removed_subscription_still_notified :
    (Invalidator.removeSubscription 0 1 c3World).isOk = true ∧
    (Invalidator.removeSubscription 0 1 c3World).world.arrays 0 = some [0, 1] ∧
    ((clockAdvance 1 (Invalidator.removeSubscription 0 1 c3World).world).andThen
      (Invalidator.invalidate 0)).world.events =
      [Event.notified 0, Event.notified 1] := by
  refine ⟨rfl, by decide, by decide⟩

/-- C8: the claim asserts that `cancel()` on a not-yet-canceled
subscription removes it from its invalidator's set and from its
component's mirrored set.  On `c8World`, cancelling subscription 1 — the
last element of both two-element arrays — returns normally and marks the
subscription canceled, yet both the invalidator's durable set and the
component's mirrored set still contain it (`subscriptions[i] =
subscriptions.pop()` re-appends the popped last element). -/
theorem C8_cancel_leaves_subscription_in_sets :
    (InvalidatorSubscription.cancel 1 c8World).isOk = true ∧
    ((InvalidatorSubscription.cancel 1 c8World).world.subs 1).map
      SubRec.isCanceled = some true ∧
    (InvalidatorSubscription.cancel 1 c8World).world.arrays 0 = some [0, 1] ∧
    (InvalidatorSubscription.cancel 1 c8World).world.arrays 1 = some [0, 1] := by
  refine ⟨rfl, by decide, by decide, by decide⟩

theorem invRemoveSub_ok {iid sid : Nat} {w w' : World}
    (h : Invalidator.removeSubscription iid sid w = .ok w') :
    w'.comps = w.comps ∧ w'.subs = w.subs ∧
    w'.nextFrameQueue = w.nextFrameQueue ∧
    w'.eachFrameQueue = w.eachFrameQueue ∧
    w'.clock = w.clock ∧ w'.events = w.events := by
  unfold Invalidator.removeSubscription at h
  split at h
  case _ s r hs hr =>
    simp only [] at h
    split at h
    · exact absurd h (by simp)
    · injection h with h
      subst h
      exact ⟨rfl, rfl, rfl, rfl, rfl, rfl⟩
  case _ => exact absurd h (by simp)

theorem cancelLoop_ok :
    ∀ (fuel i aid : Nat) (w w' : World), cancelLoop aid i fuel w = .ok w' →
    w'.comps = w.comps ∧ w'.subs = w.subs ∧
    w'.nextFrameQueue = w.nextFrameQueue ∧
    w'.eachFrameQueue = w.eachFrameQueue ∧
    w'.clock = w.clock ∧ w'.events = w.events := by
  intro fuel
  induction fuel with
  | zero => intro i aid w w' h; exact absurd h (by simp [cancelLoop])
  | succ fuel ih =>
    intro i aid w w' h
    unfold cancelLoop at h
    split at h
    · exact absurd h (by simp)
    case _ l hl =>
      split at h
      · rcases hbody : (match w.subs (l.getD i 0) with
          | none => Outcome.err "TypeError" w
          | some s => Invalidator.removeSubscription s.invalidator (l.getD i 0) w) with
          _ | _
        case ok w₂ =>
          rw [hbody] at h
          simp only [Outcome.andThen] at h
          have h2 := ih (i + 1) aid w₂ w' h
          have h1 : w₂.comps = w.comps ∧ w₂.subs = w.subs ∧
              w₂.nextFrameQueue = w.nextFrameQueue ∧
              w₂.eachFrameQueue = w.eachFrameQueue ∧
              w₂.clock = w.clock ∧ w₂.events = w.events := by
            split at hbody
            · exact absurd hbody (by simp)
            · exact invRemoveSub_ok hbody
          exact ⟨h1.1 ▸ h2.1, h1.2.1 ▸ h2.2.1, h1.2.2.1 ▸ h2.2.2.1,
            h1.2.2.2.1 ▸ h2.2.2.2.1, h1.2.2.2.2.1 ▸ h2.2.2.2.2.1,
            h1.2.2.2.2.2 ▸ h2.2.2.2.2.2⟩
        case err m w₂ =>
          rw [hbody] at h
          exact absurd h (by simp [Outcome.andThen])
      · injection h with h
        subst h
        exact ⟨rfl, rfl, rfl, rfl, rfl, rfl⟩

theorem cancelOneOrMany_ok {slot : Subs} {w w' : World}
    (h : cancelOneOrMany slot w = .ok w') :
    w'.comps = w.comps ∧ w'.subs = w.subs ∧
    w'.nextFrameQueue = w.nextFrameQueue ∧
    w'.eachFrameQueue = w.eachFrameQueue ∧
    w'.clock = w.clock ∧ w'.events = w.events := by
  unfold cancelOneOrMany at h
  split at h
  · injection h with h
    subst h
    exact ⟨rfl, rfl, rfl, rfl, rfl, rfl⟩
  · split at h
    · exact absurd h (by simp)
    · exact invRemoveSub_ok h
  · split at h
    · exact absurd h (by simp)
    · exact cancelLoop_ok _ _ _ _ _ h

theorem cancelTransient_ok {cid : Nat} {w w' : World}
    (h : Component.cancelTransientSubscriptions cid w = .ok w') :
    ∃ c, w.comps cid = some c ∧
      w'.comps = updMap w.comps cid { c with transientSubscriptions := .nil } ∧
      w'.subs = w.subs ∧ w'.nextFrameQueue = w.nextFrameQueue ∧
      w'.eachFrameQueue = w.eachFrameQueue ∧ w'.clock = w.clock ∧
      w'.events = w.events := by
  unfold Component.cancelTransientSubscriptions at h
  split at h
  · exact absurd h (by simp)
  case _ c hc =>
    refine ⟨c, hc, ?_⟩
    rcases hbody : cancelOneOrMany c.transientSubscriptions w with _ | _
    case ok w₂ =>
      rw [hbody] at h
      simp only [Outcome.andThen] at h
      obtain ⟨e1, e2, e3, e4, e5, e6⟩ := cancelOneOrMany_ok hbody
      rw [e1, hc] at h
      injection h with h
      subst h
      exact ⟨rfl, e2, e3, e4, e5, e6⟩
    case err m w₂ =>
      rw [hbody] at h
      exact absurd h (by simp [Outcome.andThen])

theorem cancelSubs_ok {cid : Nat} {w w' : World}
    (h : Component.cancelSubscriptions cid w = .ok w') :
    ∃ c, w.comps cid = some c ∧
      w'.comps = updMap w.comps cid { c with subscriptions := .nil } ∧
      w'.subs = w.subs ∧ w'.nextFrameQueue = w.nextFrameQueue ∧
      w'.eachFrameQueue = w.eachFrameQueue ∧ w'.clock = w.clock ∧
      w'.events = w.events := by
  unfold Component.cancelSubscriptions at h
  split at h
  · exact absurd h (by simp)
  case _ c hc =>
    refine ⟨c, hc, ?_⟩
    rcases hbody : cancelOneOrMany c.subscriptions w with _ | _
    case ok w₂ =>
      rw [hbody] at h
      simp only [Outcome.andThen] at h
      obtain ⟨e1, e2, e3, e4, e5, e6⟩ := cancelOneOrMany_ok hbody
      rw [e1, hc] at h
      injection h with h
      subst h
      exact ⟨rfl, e2, e3, e4, e5, e6⟩
    case err m w₂ =>
      rw [hbody] at h
      exact absurd h (by simp [Outcome.andThen])

/-- C4: `Component.invalidate` is a no-op (returns the state unchanged,
registers nothing) on a component whose flags already include Dirty or
Disposed; consequently, when a clean component's `invalidate()` returns
normally, it has appended exactly one next-frame registration and a second
consecutive `invalidate()` call leaves the resulting state completely
unchanged — two consecutive calls are equivalent to one. -/
theorem C4_invalidate_dirty_collapse (w : World) (cid : Nat) (c : CompRec)
    (hc : w.comps cid = some c) :
    (c.flags &&& (DIRTY ||| DISPOSED) ≠ 0 →
      Component.invalidate cid w = .ok w) ∧
    (c.flags &&& (DIRTY ||| DISPOSED) = 0 →
      ∀ w₁, Component.invalidate cid w = .ok w₁ →
        w₁.nextFrameQueue = w.nextFrameQueue ++ [cid] ∧
        Component.invalidate cid w₁ = .ok w₁) := by
  constructor
  · intro h
    simp [Component.invalidate, hc, h]
  · intro h w₁ h₁
    unfold Component.invalidate at h₁
    rw [hc] at h₁
    simp only [] at h₁
    rw [if_pos h] at h₁
    rcases hct : Component.cancelTransientSubscriptions cid
        { w with comps := updMap w.comps cid { c with flags := c.flags ||| DIRTY } } with w₂ | ⟨m, w₂⟩
    case ok =>
      rw [hct] at h₁
      simp only [Outcome.andThen] at h₁
      obtain ⟨c', hc', hcomps, hsubs, hq, he, hcl, hev⟩ := cancelTransient_ok hct
      simp only [] at hc' hcomps hsubs hq he hcl hev
      rw [updMap_same] at hc'
      injection hc' with hc'
      injection h₁ with h₁
      subst h₁
      subst hc'
      constructor
      · simpa using hq
      · have hw₁c : ({ w₂ with
            nextFrameQueue := w₂.nextFrameQueue ++ [cid] } : World).comps cid =
            some { c with flags := c.flags ||| DIRTY,
                          transientSubscriptions := .nil } := by
          show w₂.comps cid = _
          rw [hcomps, updMap_updMap, updMap_same]
        rw [Component.invalidate, hw₁c]
        simp only []
        rw [if_neg ?_]
        · exact fun hz => guard_after_dirty c.flags hz
    case err =>
      rw [hct] at h₁
      exact absurd h₁ (by simp [Outcome.andThen])

/-- C4 witness: on `witWorld` (a clean attached component) the first
`invalidate()` appends one registration and the second is the identity. -/
theorem C4_invalidate_dirty_collapse_witness :
    (witWorld.comps 0 = some cleanComp) ∧
    ((cleanComp.flags &&& (DIRTY ||| DISPOSED) ≠ 0 →
      Component.invalidate 0 witWorld = .ok witWorld) ∧
     (cleanComp.flags &&& (DIRTY ||| DISPOSED) = 0 →
      ∀ w₁, Component.invalidate 0 witWorld = .ok w₁ →
        w₁.nextFrameQueue = witWorld.nextFrameQueue ++ [0] ∧
        Component.invalidate 0 w₁ = .ok w₁)) :=
  ⟨by decide, C4_invalidate_dirty_collapse witWorld 0 cleanComp (by decide)⟩

/-- C6: `dispose()` on an already-Disposed component fails with the
disposal error, leaving the state exactly as it was; on a not-yet-disposed
component a normal return has set Disposed, cleared Attached and
UpdateEachFrame, emptied both of the component's subscription sets, run
the renderer's root disposal exactly when a root was present, and then run
the descriptor's `disposed` hook exactly when one was present. -/
theorem C6_dispose (w : World) (cid : Nat) (c : CompRec)
    (hc : w.comps cid = some c) :
    (c.flags &&& DISPOSED ≠ 0 →
      Component.dispose cid w =
        .err "Failed to dispose Component: component is already disposed" w) ∧
    (∀ w', Component.dispose cid w = .ok w' →
      w'.comps cid = some { c with
        flags := bitClear (c.flags ||| DISPOSED) (ATTACHED ||| UPDATE_EACH_FRAME),
        subscriptions := .nil, transientSubscriptions := .nil } ∧
      w'.events = (w.events ++ (if c.hasRoot then [Event.rootDisposed cid] else []))
        ++ (if c.descDisposed then [Event.disposedHook cid] else [])) := by
  constructor
  · intro h
    simp [Component.dispose, hc, h]
  · intro w' h'
    unfold Component.dispose at h'
    rw [hc] at h'
    simp only [bne_iff_ne, ne_eq] at h'
    by_cases hd : c.flags &&& DISPOSED = 0
    case neg =>
      rw [if_pos hd] at h'
      exact absurd h' (by simp)
    case pos =>
      rw [if_neg (by simp [hd])] at h'
      rcases hcs : Component.cancelSubscriptions cid
          { w with comps := updMap w.comps cid { c with flags := bitClear (c.flags ||| DISPOSED) (ATTACHED ||| UPDATE_EACH_FRAME) } } with w₂ | ⟨m, w₂⟩
      case err =>
        rw [hcs] at h'
        exact absurd h' (by simp [Outcome.andThen])
      case ok =>
        rw [hcs] at h'
        simp only [Outcome.andThen] at h'
        obtain ⟨c₁, hc₁, hcomps₂, hsubs₂, hq₂, he₂, hcl₂, hev₂⟩ := cancelSubs_ok hcs
        simp only [] at hc₁ hcomps₂ hsubs₂ hq₂ he₂ hcl₂ hev₂
        rw [updMap_same] at hc₁
        injection hc₁ with hc₁
        subst hc₁
        rcases hct : Component.cancelTransientSubscriptions cid w₂ with w₃ | ⟨m, w₃⟩
        case err =>
          rw [hct] at h'
          exact absurd h' (by simp [Outcome.andThen])
        case ok =>
          rw [hct] at h'
          simp only [Outcome.andThen] at h'
          obtain ⟨c₂, hc₂, hcomps₃, hsubs₃, hq₃, he₃, hcl₃, hev₃⟩ := cancelTransient_ok hct
          rw [hcomps₂, updMap_updMap, updMap_same] at hc₂
          injection hc₂ with hc₂
          subst hc₂
          have hw₃c : w₃.comps cid = some { c with
              flags := bitClear (c.flags ||| DISPOSED) (ATTACHED ||| UPDATE_EACH_FRAME),
              subscriptions := .nil, transientSubscriptions := .nil } := by
            rw [hcomps₃, updMap_same]
          rw [hw₃c] at h'
          simp only [] at h'
          have hev : w₃.events = w.events := by rw [hev₃, hev₂]
          cases hcr : c.hasRoot <;> cases hcd : c.descDisposed <;>
            rw [hcr, hcd] at h' <;> simp only [if_true, if_false, Bool.false_eq_true] at h' <;>
            [skip; skip; skip; skip] <;>
            · injection h' with h'
              subst h'
              refine ⟨?_, ?_⟩
              · simpa [hcr, hcd] using hw₃c
              · simp [hcr, hcd, hev]

/-- C6 witness: on `c6World` the hypotheses hold; `dispose` on the
not-yet-disposed component yields the claimed flags, empty sets and the
renderer / hook events. -/
theorem C6_dispose_witness :
    (c6World.comps 0 = some c6Comp) ∧
    ((c6Comp.flags &&& DISPOSED ≠ 0 →
      Component.dispose 0 c6World =
        .err "Failed to dispose Component: component is already disposed" c6World) ∧
     (∀ w', Component.dispose 0 c6World = .ok w' →
      w'.comps 0 = some { c6Comp with
        flags := bitClear (c6Comp.flags ||| DISPOSED) (ATTACHED ||| UPDATE_EACH_FRAME),
        subscriptions := .nil, transientSubscriptions := .nil } ∧
      w'.events = (c6World.events ++
          (if c6Comp.hasRoot then [Event.rootDisposed 0] else []))
        ++ (if c6Comp.descDisposed then [Event.disposedHook 0] else []))) :=
  ⟨by decide, C6_dispose c6World 0 c6Comp (by decide)⟩

theorem invMtimeLe_refl (w : World) : invMtimeLe w w :=
  fun _ r h => ⟨r, h, Nat.le_refl _⟩

theorem invMtimeLe_trans {w₁ w₂ w₃ : World}
    (h1 : invMtimeLe w₁ w₂) (h2 : invMtimeLe w₂ w₃) : invMtimeLe w₁ w₃ := by
  intro i r h
  obtain ⟨r', h', hle⟩ := h1 i r h
  obtain ⟨r'', h'', hle'⟩ := h2 i r' h'
  exact ⟨r'', h'', Nat.le_trans hle hle'⟩

theorem invMtimeLe_of_invs_eq {w w' : World} (h : w'.invs = w.invs) :
    invMtimeLe w w' := by
  intro i r hr
  exact ⟨r, h ▸ hr, Nat.le_refl _⟩

theorem invMtimeLe_updMap {w w' : World} {iid : Nat} {r r' : InvRec}
    (h : w.invs iid = some r) (hw : w'.invs = updMap w.invs iid r')
    (hm : r.mtime ≤ r'.mtime) : invMtimeLe w w' := by
  intro i r₀ h₀
  by_cases hi : i = iid
  · subst hi
    rw [h] at h₀
    injection h₀ with h₀
    subst h₀
    exact ⟨r', by rw [hw, updMap_same], hm⟩
  · exact ⟨r₀, by rw [hw, updMap_other _ _ _ _ hi, h₀], Nat.le_refl _⟩

theorem mono_andThen {w : World} {o : Outcome} {f : World → Outcome}
    (h1 : invMtimeLe w o.world)
    (h2 : ∀ w₂, o = .ok w₂ → invMtimeLe w₂ (f w₂).world) :
    invMtimeLe w ((o.andThen f).world) := by
  cases o with
  | ok w₂ => exact invMtimeLe_trans h1 (h2 w₂ rfl)
  | err m w₂ => exact h1

theorem setSlot_mtime (r : InvRec) (t : Bool) (s : Subs) :
    (r.setSlot t s).mtime = r.mtime := by
  cases t <;> rfl

theorem mono_invRemoveSub (iid sid : Nat) (w : World) :
    invMtimeLe w ((Invalidator.removeSubscription iid sid w).world) := by
  unfold Invalidator.removeSubscription
  split
  case _ s r hs hr =>
    simp only []
    split
    · exact invMtimeLe_refl w
    · exact invMtimeLe_updMap hr rfl (Nat.le_of_eq (setSlot_mtime ..).symm)
  case _ => exact invMtimeLe_refl w

theorem mono_compRemoveSub (cid sid : Nat) (w : World) :
    invMtimeLe w ((Component.removeSubscription cid sid w).world) := by
  unfold Component.removeSubscription
  split
  case _ s c hs hc =>
    simp only []
    split
    · exact invMtimeLe_refl w
    · exact invMtimeLe_of_invs_eq rfl
  case _ => exact invMtimeLe_refl w

theorem mono_cancel (sid : Nat) (w : World) :
    invMtimeLe w ((InvalidatorSubscription.cancel sid w).world) := by
  unfold InvalidatorSubscription.cancel
  split
  · exact invMtimeLe_refl w
  case _ s hs =>
    split
    · exact invMtimeLe_refl w
    · apply mono_andThen
      · refine invMtimeLe_trans ?_ (mono_invRemoveSub _ _ _)
        exact invMtimeLe_of_invs_eq rfl
      · intro w₂ _
        split
        · split
          · exact mono_compRemoveSub _ sid w₂
          · exact invMtimeLe_refl w₂
        · exact invMtimeLe_refl w₂

theorem mono_runCmds : ∀ (prog : List Cmd) (w : World),
    invMtimeLe w ((runCmds prog w).world) := by
  intro prog
  induction prog with
  | nil => intro w; exact invMtimeLe_refl w
  | cons cmd rest ih =>
    intro w
    cases cmd with
    | nop => exact ih w
    | cancelSub sid =>
      exact mono_andThen (mono_cancel sid w) (fun w₂ _ => ih w₂)

theorem mono_cancelLoop : ∀ (fuel i aid : Nat) (w : World),
    invMtimeLe w ((cancelLoop aid i fuel w).world) := by
  intro fuel
  induction fuel with
  | zero => intro i aid w; exact invMtimeLe_refl w
  | succ fuel ih =>
    intro i aid w
    unfold cancelLoop
    split
    · exact invMtimeLe_refl w
    case _ l hl =>
      split
      · apply mono_andThen
        · split
          · exact invMtimeLe_refl w
          · exact mono_invRemoveSub _ _ w
        · intro w₂ _
          exact ih (i + 1) aid w₂
      · exact invMtimeLe_refl w

theorem mono_cancelOneOrMany (slot : Subs) (w : World) :
    invMtimeLe w ((cancelOneOrMany slot w).world) := by
  unfold cancelOneOrMany
  split
  · exact invMtimeLe_refl w
  · split
    · exact invMtimeLe_refl w
    · exact mono_invRemoveSub _ _ w
  · split
    · exact invMtimeLe_refl w
    · exact mono_cancelLoop _ _ _ w

theorem mono_cancelTransient (cid : Nat) (w : World) :
    invMtimeLe w ((Component.cancelTransientSubscriptions cid w).world) := by
  unfold Component.cancelTransientSubscriptions
  split
  · exact invMtimeLe_refl w
  case _ c hc =>
    apply mono_andThen (mono_cancelOneOrMany _ w)
    intro w₂ _
    split
    · exact invMtimeLe_refl w₂
    · exact invMtimeLe_of_invs_eq rfl

theorem mono_cancelSubs (cid : Nat) (w : World) :
    invMtimeLe w ((Component.cancelSubscriptions cid w).world) := by
  unfold Component.cancelSubscriptions
  split
  · exact invMtimeLe_refl w
  case _ c hc =>
    apply mono_andThen (mono_cancelOneOrMany _ w)
    intro w₂ _
    split
    · exact invMtimeLe_refl w₂
    · exact invMtimeLe_of_invs_eq rfl

theorem mono_compInvalidate (cid : Nat) (w : World) :
    invMtimeLe w ((Component.invalidate cid w).world) := by
  unfold Component.invalidate
  split
  · exact invMtimeLe_refl w
  case _ c hc =>
    split
    · apply mono_andThen
      · refine invMtimeLe_trans ?_ (mono_cancelTransient _ _)
        exact invMtimeLe_of_invs_eq rfl
      · intro w₂ _
        exact invMtimeLe_of_invs_eq rfl
    · exact invMtimeLe_refl w

theorem mono_subInvalidate (sid : Nat) (w : World) :
    invMtimeLe w ((InvalidatorSubscription.invalidate sid w).world) := by
  unfold InvalidatorSubscription.invalidate
  split
  · exact invMtimeLe_refl w
  case _ s hs =>
    have hW : invMtimeLe w { w with events := w.events ++ [Event.notified sid] } :=
      invMtimeLe_of_invs_eq rfl
    split
    · split
      · exact invMtimeLe_trans hW (mono_compInvalidate _ _)
      · exact hW
    · split
      · exact invMtimeLe_trans hW (mono_runCmds _ _)
      · exact hW

theorem mono_waveLoop : ∀ (fuel i aid : Nat) (w : World),
    invMtimeLe w ((waveLoop aid i fuel w).world) := by
  intro fuel
  induction fuel with
  | zero => intro i aid w; exact invMtimeLe_refl w
  | succ fuel ih =>
    intro i aid w
    unfold waveLoop
    split
    · exact invMtimeLe_refl w
    case _ l hl =>
      split
      · exact mono_andThen (mono_subInvalidate _ w) (fun w₂ _ => ih (i + 1) aid w₂)
      · exact invMtimeLe_refl w

theorem mono_invInvalidate (iid : Nat) (w : World) :
    invMtimeLe w ((Invalidator.invalidate iid w).world) := by
  unfold Invalidator.invalidate
  split
  · exact invMtimeLe_refl w
  case _ r hr =>
    split
    case isTrue hlt =>
      have hW : invMtimeLe w
          { w with invs := updMap w.invs iid { r with mtime := w.clock } } :=
        invMtimeLe_updMap hr rfl (Nat.le_of_lt hlt)
      apply mono_andThen
      · split
        · exact hW
        · exact invMtimeLe_trans hW (mono_subInvalidate _ _)
        · split
          · exact hW
          · exact invMtimeLe_trans hW (mono_waveLoop _ _ _ _)
      · intro w₂ _
        split
        · exact invMtimeLe_refl w₂
        case _ r2 hr2 =>
          split
          · exact invMtimeLe_refl w₂
          · simp only []
            refine invMtimeLe_trans ?_ (mono_subInvalidate _ _)
            exact invMtimeLe_updMap hr2 rfl (Nat.le_refl _)
          · simp only []
            split
            · exact invMtimeLe_updMap hr2 rfl (Nat.le_refl _)
            · refine invMtimeLe_trans ?_ (mono_waveLoop _ _ _ _)
              exact invMtimeLe_updMap hr2 rfl (Nat.le_refl _)
    case isFalse => exact invMtimeLe_refl w

theorem mono_addSubscription (iid sid : Nat) (w : World) :
    invMtimeLe w ((Invalidator.addSubscription iid sid w).world) := by
  unfold Invalidator.addSubscription
  split
  case _ s r hs hr =>
    simp only []
    split
    · exact invMtimeLe_refl w
    · exact invMtimeLe_updMap hr rfl (Nat.le_of_eq (setSlot_mtime ..).symm)
  case _ => exact invMtimeLe_refl w

theorem mono_construct (w : World) (hfresh : w.invs w.nextInvId = none) :
    invMtimeLe w ((Invalidator.construct w).world) := by
  intro i r h
  have hi : i ≠ w.nextInvId := by
    intro he
    rw [he, hfresh] at h
    exact Option.noConfusion h
  exact ⟨r, by
    show updMap w.invs w.nextInvId _ i = some r
    rw [updMap_other _ _ _ _ hi, h], Nat.le_refl _⟩

theorem mono_callbackSubscribe (iid : Nat) (transient : Bool)
    (prog : List Cmd) (w : World) :
    invMtimeLe w ((callbackSubscribe iid transient prog w).world) := by
  unfold callbackSubscribe
  refine invMtimeLe_trans ?_ (mono_addSubscription _ _ _)
  exact invMtimeLe_of_invs_eq rfl

theorem mono_subscribe (cid iid : Nat) (w : World) :
    invMtimeLe w ((Component.subscribe cid iid w).world) := by
  unfold Component.subscribe
  split
  · exact invMtimeLe_refl w
  · apply mono_andThen
    · refine invMtimeLe_trans ?_ (mono_addSubscription _ _ _)
      exact invMtimeLe_of_invs_eq rfl
    · intro w₂ _
      split
      · exact invMtimeLe_refl w₂
      · split
        · exact invMtimeLe_refl w₂
        · exact invMtimeLe_of_invs_eq rfl

theorem mono_transientSubscribe (cid iid : Nat) (w : World) :
    invMtimeLe w ((Component.transientSubscribe cid iid w).world) := by
  unfold Component.transientSubscribe
  split
  · exact invMtimeLe_refl w
  · apply mono_andThen
    · refine invMtimeLe_trans ?_ (mono_addSubscription _ _ _)
      exact invMtimeLe_of_invs_eq rfl
    · intro w₂ _
      split
      · exact invMtimeLe_refl w₂
      · split
        · exact invMtimeLe_refl w₂
        · exact invMtimeLe_of_invs_eq rfl

theorem mono_create (mounting descInit descUpdate descDisposed : Bool)
    (parent : Option Nat) (hasRoot : Bool) (w : World) :
    invMtimeLe w
      ((Component.create mounting descInit descUpdate descDisposed
        parent hasRoot w).world) := by
  apply invMtimeLe_of_invs_eq
  unfold Component.create
  simp only []
  split
  · split
    · rfl
    · split <;> rfl
  · split <;> rfl

theorem mono_update (cid : Nat) (w : World) :
    invMtimeLe w ((Component.update cid w).world) := by
  unfold Component.update
  split
  · exact invMtimeLe_refl w
  · split
    · split
      · exact invMtimeLe_of_invs_eq rfl
      · exact invMtimeLe_refl w
    · exact invMtimeLe_refl w

theorem mono_start (cid : Nat) (w : World) :
    invMtimeLe w ((Component.startUpdateEachFrame cid w).world) := by
  unfold Component.startUpdateEachFrame
  split
  · exact invMtimeLe_refl w
  · simp only []
    split
    · exact invMtimeLe_of_invs_eq rfl
    · exact invMtimeLe_of_invs_eq rfl

theorem mono_stop (cid : Nat) (w : World) :
    invMtimeLe w ((Component.stopUpdateEachFrame cid w).world) := by
  unfold Component.stopUpdateEachFrame
  split
  · exact invMtimeLe_refl w
  · exact invMtimeLe_of_invs_eq rfl

theorem mono_dispose (cid : Nat) (w : World) :
    invMtimeLe w ((Component.dispose cid w).world) := by
  unfold Component.dispose
  split
  · exact invMtimeLe_refl w
  case _ c hc =>
    split
    · exact invMtimeLe_refl w
    · apply mono_andThen
      · refine invMtimeLe_trans ?_ (mono_cancelSubs _ _)
        exact invMtimeLe_of_invs_eq rfl
      · intro w₂ _
        apply mono_andThen (mono_cancelTransient cid w₂)
        intro w₃ _
        split
        · exact invMtimeLe_refl w₃
        · simp only []
          split <;> split <;> exact invMtimeLe_of_invs_eq rfl

/-- C7: an `Invalidator` is constructed with `mtime` equal to the
scheduler's current clock, and no operation of the core (nor the clock
advance, the only way the external scheduler's monotonic clock is
modelled to change) ever decreases any existing invalidator's `mtime`.
The freshness hypothesis says the constructor's id counter does not
collide with a live invalidator. -/
theorem C7_mtime_monotonic (op : Op) (w : World)
    (hfresh : w.invs w.nextInvId = none) :
    invMtimeLe w ((applyOp op w).world) ∧
    (Invalidator.construct w).world.invs w.nextInvId =
      some { mtime := w.clock, subscriptions := .nil,
             transientSubscriptions := .nil } := by
  constructor
  · cases op with
    | clockAdvance n => exact invMtimeLe_of_invs_eq rfl
    | invalidatorConstruct => exact mono_construct w hfresh
    | invalidatorAddSubscription iid sid => exact mono_addSubscription iid sid w
    | invalidatorRemoveSubscription iid sid => exact mono_invRemoveSub iid sid w
    | invalidatorInvalidate iid => exact mono_invInvalidate iid w
    | subscriptionCancel sid => exact mono_cancel sid w
    | subscriptionInvalidate sid => exact mono_subInvalidate sid w
    | callbackSubscribe iid transient prog =>
        exact mono_callbackSubscribe iid transient prog w
    | componentCreate mounting dInit dUpdate dDisposed parent hasRoot =>
        exact mono_create mounting dInit dUpdate dDisposed parent hasRoot w
    | componentSubscribe cid iid => exact mono_subscribe cid iid w
    | componentTransientSubscribe cid iid => exact mono_transientSubscribe cid iid w
    | componentRemoveSubscription cid sid => exact mono_compRemoveSub cid sid w
    | componentCancelSubscriptions cid => exact mono_cancelSubs cid w
    | componentCancelTransientSubscriptions cid => exact mono_cancelTransient cid w
    | componentInvalidate cid => exact mono_compInvalidate cid w
    | componentUpdate cid => exact mono_update cid w
    | componentStartUpdateEachFrame cid => exact mono_start cid w
    | componentStopUpdateEachFrame cid => exact mono_stop cid w
    | componentDispose cid => exact mono_dispose cid w
  · show updMap w.invs w.nextInvId _ w.nextInvId = _
    rw [updMap_same]

/-- C7 witness: on `witWorld` (fresh invalidator counter) the invariant
holds for a concrete operation, and a newly constructed invalidator
carries `mtime = clock`. -/
theorem C7_mtime_monotonic_witness :
    (witWorld.invs witWorld.nextInvId = none) ∧
    (invMtimeLe witWorld ((applyOp (.componentInvalidate 0) witWorld).world) ∧
     (Invalidator.construct witWorld).world.invs witWorld.nextInvId =
       some { mtime := witWorld.clock, subscriptions := .nil,
              transientSubscriptions := .nil }) :=
  ⟨by decide, C7_mtime_monotonic (.componentInvalidate 0) witWorld (by decide)⟩

end kivi
